import Mathlib

/-!
# Verification of the combobox-view combobox input state machine

Shallow embedding of `src/components/shared-components/WholeInputField/ComboboxInput.vue`
and its companion `combobox.utils.js`.  JavaScript numbers that only ever hold
array indices or timestamps are modelled as `Int` / `Nat`; `null`/`undefined`
are modelled with `Option`; thrown exceptions with `Except String`.
-/

namespace Combobox

/-- A canonical combobox option record `{value, label, icon}` (spec §3). -/
structure ComboOption where
  value : String
  label : String
  icon : String
  deriving Repr, DecidableEq

/-- The three validity flags carried by an emitted change notification. -/
structure Validity where
  valid : Bool
  badInput : Bool
  valueMissing : Bool
  deriving Repr, DecidableEq

/-- `String.includes` of JavaScript on exploded strings: does the second list
occur contiguously inside the first? -/
def listIncludes : List Char → List Char → Bool
  | _, [] => true
  | [], _ :: _ => false
  | c :: rest, sub => sub.isPrefixOf (c :: rest) || listIncludes rest sub

/-- JavaScript `haystack.includes(needle)`. -/
def strIncludes (haystack needle : String) : Bool :=
  listIncludes haystack.data needle.data

/-- JavaScript `str.trim()`: strip leading and trailing whitespace.  Defined
by structural recursion over the character list so the kernel can evaluate
it. -/
def jsTrim (s : String) : String :=
  String.mk (((s.data.dropWhile Char.isWhitespace).reverse.dropWhile
    Char.isWhitespace).reverse)

/-- JavaScript `str.toLocaleLowerCase()` on the ASCII data these components
handle. -/
def jsToLower (s : String) : String :=
  String.mk (s.data.map Char.toLower)

-- --------------------------------------------------
-- combobox.utils.js : getEmitData

/-- The record returned by `getEmitData` in combobox.utils.js. -/
structure EmitData where
  output : String
  validity : Validity
  empty : Bool
  rawOutput : Option ComboOption
  bad : Bool
  deriving Repr, DecidableEq

/-- JavaScript array subscript `_options[_index]` with a numeric index:
`undefined` (here `none`) when the index is negative or past the end. -/
def jsIndex (opts : List ComboOption) (i : Int) : Option ComboOption :=
  if 0 ≤ i then opts.get? i.toNat else none

/-- `getEmitData(_options, _index, _str)` from combobox.utils.js: builds the
value/validity payload for a change emission. -/
def getEmitData (_options : List ComboOption) (_index : Option Int)
    (_str : String) : EmitData :=
  let empty : Bool := _options.length == 0
  let rawOutput : Option ComboOption :=
    if empty = false then
      match _index with
      | some i => jsIndex _options i
      | none => none
    else none
  let bad : Bool := rawOutput.isNone
  let validity : Validity :=
    if bad then
      { valid := false, badInput := (jsTrim _str == "" || empty), valueMissing := true }
    else
      { valid := true, badInput := false, valueMissing := false }
  let output : String :=
    match rawOutput with
    | some o => o.value
    | none => ""
  { output := output, validity := validity, empty := empty,
    rawOutput := rawOutput, bad := bad }

-- --------------------------------------------------
-- combobox.utils.js : defaultFilter

/-- `typeof item.label` in JavaScript: labels are strings here, and the string
`"string"` is truthy, so this JS expression is always truthy when coerced to a
boolean by `Array.filter`. -/
def typeofLabelTruthy (_item : ComboOption) : Bool := "string" != ""

/-- `defaultFilter(optionList, value, options)` from combobox.utils.js.  Note
the source's second disjunct is `(typeof item.label)`, not a substring test on
the label. -/
def defaultFilter (optionList : List ComboOption) (value : String)
    (options : List ComboOption) : List ComboOption :=
  if optionList.length > 0 then
    let val := jsToLower (jsTrim value)
    if val != "" then
      optionList.filter (fun item =>
        strIncludes (jsToLower item.value) val || typeofLabelTruthy item)
    else options
  else options

/-- Modelled from the spec: the *intended* secondary filter, "case-insensitive
substring match on value/label" (spec §4.2, §8), used as the comparison point
for the source's `defaultFilter`. -/
def defaultFilterSpec (optionList : List ComboOption) (value : String)
    (options : List ComboOption) : List ComboOption :=
  if optionList.length > 0 then
    let val := jsToLower (jsTrim value)
    if val != "" then
      optionList.filter (fun item =>
        strIncludes (jsToLower item.value) val ||
          strIncludes (jsToLower item.label) val)
    else options
  else options

-- --------------------------------------------------
-- combobox.utils.js : getOptionItem

/-- The record produced by option normalisation.  JavaScript objects may or
may not carry a `default` property; its presence is modelled with `Option`. -/
structure NormOption where
  value : String
  label : String
  dflt : Option String
  icon : String
  deriving Repr, DecidableEq

/-- A raw item handed to the normaliser: a JS string, a JS number, a
structured record, or any other JS value carrying its `typeof` string.
Structured records are modelled post field-discovery (see `getOptionItem`). -/
inductive RawItem where
  | str (s : String)
  | num (n : Int)
  | obj (o : NormOption)
  | other (ty : String)
  deriving Repr, DecidableEq

/-- Modelled from the spec: `nullStr` / `isStrNum` live in
`src/utils/data-utils.js`, which is not under src/; per spec §4.1 a string or
number item is converted with `str(item)`. -/
def nullStr : RawItem → String
  | .str s => s
  | .num n => toString n
  | .obj _ => ""
  | .other _ => ""

/-- `getOptionItem(func)(item)` from combobox.utils.js.  The `func` argument
is the item normaliser applied to structured records (in the source it is
`getNormaliseSingleOption('', true)` from radio-select.utils.js, not under
src/, so the record branch stays parametric; the source's icon defaulting is
absorbed into the modelled record payload). -/
def getOptionItem (func : NormOption → NormOption) (item : RawItem) :
    Except String NormOption :=
  match item with
  | .str _ | .num _ =>
    let tmp := nullStr item
    .ok { value := tmp, label := tmp, dflt := some tmp, icon := "" }
  | .obj o =>
    let _item := func o
    if _item.value == "" || _item.label == "" then
      .error ("getOptionItem() could not find a property name for either "
        ++ "value or label")
    else .ok _item
  | .other ty =>
    .error ("getOptionItem()  expects each item to be a string, number or "
      ++ "object. Received " ++ ty)

-- --------------------------------------------------
-- ComboboxInput.vue : component state and props

/-- The component props that influence the modelled behaviour.  The `filter`
and `debounceFilter` callbacks are passed to the operations separately, since
they are host-supplied functions. -/
structure ComboProps where
  autoSelect : Bool
  loop : Bool
  required : Bool
  debounceTime : Nat
  deriving Repr, DecidableEq

/-- An emitted change notification (the payload of `getFauxInputEvent`). -/
structure Emission where
  output : String
  rawOption : Option ComboOption
  validity : Validity
  deriving Repr, DecidableEq

/-- The mutable state of one mounted `ComboboxInput` instance.  `emitted` and
`invalidLog` record the `change` / `invalid` events published to the host, and
`hostCalls` records each invocation of the host-supplied `filter` callback;
these three are observation logs, appended exactly where the source emits or
calls.  `inputValue` is the text displayed in the DOM input element. -/
structure CState where
  filterStr : String
  fetching : Bool
  maxIndex : Int
  options : List ComboOption
  rawOptions : List ComboOption
  retry : Nat
  selectedIndex : Option Int
  showList : Bool
  inputValue : String
  activeVal : Option String
  emitted : List Emission
  invalidLog : List Bool
  hostCalls : List String
  deriving Repr, DecidableEq

/-- What a host `filter(str)` call returns: a plain array, a Promise, or
anything else (carrying its `typeof` string, which the source rejects). -/
inductive FilterResult where
  | arr (l : List ComboOption)
  | promise
  | other (ty : String)
  deriving Repr, DecidableEq

/-- `emitChange(_options, _index, _str, _input, _close)` from
ComboboxInput.vue: builds the emit data, optionally rewrites the input
field's text (when `_close` is true), updates `activeVal`, publishes a
`change` event, and an `invalid` event when the field is required. -/
def emitChange (p : ComboProps) (s : CState) (_options : List ComboOption)
    (_index : Option Int) (_str : String) (_close : Bool) : CState :=
  let d := getEmitData _options _index _str
  let s :=
    if _close = true then
      { s with inputValue :=
          if d.bad = true then ""
          else match d.rawOutput with
            | some o => o.label
            | none => "" }
    else s
  let s := { s with activeVal := if d.bad = true then none else some d.output }
  let s := { s with emitted := s.emitted ++ [⟨d.output, d.rawOutput, d.validity⟩] }
  if p.required = true then { s with invalidLog := s.invalidLog ++ [d.bad] }
  else s

/-- `decrement(step)` from ComboboxInput.vue. -/
def decrement (p : ComboProps) (step : Int) (s : CState) : CState :=
  if s.maxIndex > -1 then
    let s :=
      match s.selectedIndex with
      | none => { s with selectedIndex := some s.maxIndex }
      | some i =>
        let newVal := i - step
        if newVal ≥ 0 then { s with selectedIndex := some newVal }
        else if p.loop = true then { s with selectedIndex := some s.maxIndex }
        else { s with selectedIndex := some 0 }
    emitChange p s s.options s.selectedIndex s.filterStr false
  else s

/-- `increment(step)` from ComboboxInput.vue.  From a `null` selection the
new index is `-1 + step`, with no clamp against `maxIndex`. -/
def increment (p : ComboProps) (step : Int) (s : CState) : CState :=
  if s.maxIndex > -1 then
    let s :=
      match s.selectedIndex with
      | none => { s with selectedIndex := some (-1 + step) }
      | some i =>
        let newVal := i + step
        if newVal ≤ s.maxIndex then { s with selectedIndex := some newVal }
        else if p.loop = true then { s with selectedIndex := some 0 }
        else { s with selectedIndex := some s.maxIndex }
    emitChange p s s.options s.selectedIndex s.filterStr false
  else s

/-- `resetDebounce()` from ComboboxInput.vue — the callback handed to
`setTimeout(..., debounceTime)` when a Promise-returning filter starts.  It
zeroes `retry` only. -/
def resetDebounce (s : CState) : CState := { s with retry := 0 }

/-- Modelled from the spec: `getNormaliseSingleOption` (radio-select.utils.js)
is not under src/.  On canonical `{value, label, icon}` records the §4.1
field-discovery step is the identity (spec §8 round-trip:
`normalize([{value:'1',label:'one'}]) = [{value:'1',label:'one',icon:''}]`),
so `getRawOptions` acts as the identity map on the canonical option lists the
state machine works over. -/
def getRawOptions (optionlist : List ComboOption) : List ComboOption :=
  optionlist.map (fun o => o)

/-- `setOptions(optionList)` from ComboboxInput.vue: installs a fresh filter
result, applies the auto-select policy, and emits when auto-selecting or when
the new list is empty. -/
def setOptions (p : ComboProps) (s : CState) (optionList : List ComboOption) :
    CState :=
  let s := { s with rawOptions := getRawOptions optionList,
                    options := getRawOptions optionList,
                    maxIndex := (optionList.length : Int) - 1 }
  let auto : Bool := optionList.length == 1 && p.autoSelect
  let s := if auto = true then { s with selectedIndex := some 0 } else s
  let ok : Bool := !(auto = false && s.maxIndex < 0)
  if auto = true || ok = false then
    emitChange p s s.options s.selectedIndex s.filterStr false
  else s

/-- `setOptionsThen(response)` from ComboboxInput.vue — the Promise `then`
handler: rejects non-array resolutions, otherwise clears the session and
installs the result. -/
def setOptionsThen (p : ComboProps) (s : CState) (response : FilterResult) :
    Except String CState :=
  match response with
  | .arr l => .ok (setOptions p { s with fetching := false, retry := 0 } l)
  | _ => .error "setOptionsThen: response is not an array"

/-- The Promise `catch` handler inside `getOptionList`: clears the session
and empties the tracked option range. -/
def filterCatch (s : CState) : CState :=
  { s with fetching := false, retry := 0, maxIndex := -1 }

/-- `getOptionList(str)` from ComboboxInput.vue.  `flt` is the host-supplied
`props.filter`, `bouncing` the secondary filter installed at mount
(`props.debounceFilter` or `defaultFilter`), and `now` is `Date.now()`.
Returns `.error` for the thrown configuration error when the filter callback
returns neither an array nor a Promise.  The Promise continuation
(`setOptionsThen` / `filterCatch`) and the scheduled `resetDebounce` timer
run as separate later events of the event loop. -/
def getOptionList (p : ComboProps) (flt : String → FilterResult)
    (bouncing : List ComboOption → String → List ComboOption → List ComboOption)
    (now : Nat) (s : CState) (str : String) : Except String CState :=
  if s.fetching = false || s.retry < now then
    let s := { s with fetching := false, retry := 0,
                      hostCalls := s.hostCalls ++ [str] }
    let tmp := flt str
    let s := { s with showList := true }
    match tmp with
    | .arr l => .ok (setOptions p s l)
    | .promise =>
      .ok { s with fetching := true, retry := now + p.debounceTime }
    | .other ty =>
      .error ("expects `filter` attribute to return either an array or a "
        ++ "Promise. " ++ ty ++ " returned")
  else
    .ok { s with options := bouncing s.rawOptions str s.options }

/-- The `for` loop of `handleEnter`: index of the first option in
`rawOptions` whose `value` equals `val`, starting the scan at position `a`. -/
def firstMatch (val : String) : List ComboOption → Nat → Option Nat
  | [], _ => none
  | o :: rest, a => if o.value = val then some a else firstMatch val rest (a + 1)

/-- The `val` extraction at the top of `handleEnter`:
`event.target.dataset.value` when the attribute is a string, `''` otherwise. -/
def dataValue (ev : Option String) : String :=
  match ev with
  | some v => v
  | none => ""

/-- `handleEnter(event)` from ComboboxInput.vue.  `ev` models
`event.target.dataset.value` (`none` when the attribute is missing). -/
def handleEnter (p : ComboProps) (ev : Option String) (s : CState) : CState :=
  let val : String := dataValue ev
  let s := { s with selectedIndex := none }
  let s :=
    if val ≠ "" then
      match firstMatch val s.rawOptions 0 with
      | some a => { s with selectedIndex := some (a : Int) }
      | none => s
    else s
  let s := emitChange p s s.rawOptions s.selectedIndex s.filterStr true
  { s with showList := false }

/-- `handleKeyboardNav(key, ctrl, event)` from ComboboxInput.vue. -/
def handleKeyboardNav (p : ComboProps) (key : String) (ctrl : Bool)
    (ev : Option String) (s : CState) : CState :=
  let step : Int := if ctrl = true then 5 else 1
  if s.maxIndex > -1 then
    if key = "ArrowDown" ∨ key = "Down" then increment p step s
    else if key = "ArrowUp" ∨ key = "Up" then decrement p step s
    else if key = "PageUp" then decrement p 10 s
    else if key = "PageDown" then increment p 10 s
    else if key = "Home" then { s with selectedIndex := some 0 }
    else if key = "End" then { s with selectedIndex := some s.maxIndex }
    else if key = "Enter" ∨ key = "Return" then handleEnter p ev s
    else if key = "Esc" ∨ key = "Escape" then
      let s := { s with selectedIndex := none }
      let s := emitChange p s s.options s.selectedIndex s.filterStr true
      { s with showList := false }
    else s
  else s

-- --------------------------------------------------
-- Concrete fixtures (used by witnesses and counterexamples)

/-- Props with every boolean off and the default debounce time. -/
def p0 : ComboProps := ⟨false, false, false, 500⟩

/-- Props with auto-select enabled. -/
def pAuto : ComboProps := ⟨true, false, false, 500⟩

def oACT : ComboOption := ⟨"ACT", "Australian Captial Territory", ""⟩
def oNSW : ComboOption := ⟨"NSW", "New South Wales", ""⟩
def oQLD : ComboOption := ⟨"Qld", "Queensland", ""⟩

/-- The component state right after mount: empty logs, no options. -/
def mount0 : CState :=
  ⟨"", false, -1, [], [], 0, none, false, "", none, [], [], []⟩

/-- A state holding three options with the third one highlighted. -/
def threeSel2 : CState :=
  { mount0 with maxIndex := 2, selectedIndex := some 2,
                options := [oACT, oNSW, oQLD],
                rawOptions := [oACT, oNSW, oQLD] }

-- --------------------------------------------------
-- Basic lemmas about emitChange

theorem emitChange_selectedIndex (p : ComboProps) (s : CState)
    (o : List ComboOption) (i : Option Int) (str : String) (c : Bool) :
    (emitChange p s o i str c).selectedIndex = s.selectedIndex := by
  unfold emitChange
  dsimp only
  split <;> split <;> rfl

theorem emitChange_maxIndex (p : ComboProps) (s : CState)
    (o : List ComboOption) (i : Option Int) (str : String) (c : Bool) :
    (emitChange p s o i str c).maxIndex = s.maxIndex := by
  unfold emitChange
  dsimp only
  split <;> split <;> rfl

theorem emitChange_emitted (p : ComboProps) (s : CState)
    (o : List ComboOption) (i : Option Int) (str : String) (c : Bool) :
    (emitChange p s o i str c).emitted =
      s.emitted ++ [⟨(getEmitData o i str).output, (getEmitData o i str).rawOutput,
        (getEmitData o i str).validity⟩] := by
  unfold emitChange
  dsimp only
  split <;> split <;> rfl

theorem emitChange_hostCalls (p : ComboProps) (s : CState)
    (o : List ComboOption) (i : Option Int) (str : String) (c : Bool) :
    (emitChange p s o i str c).hostCalls = s.hostCalls := by
  unfold emitChange
  dsimp only
  split <;> split <;> rfl

theorem emitChange_showList (p : ComboProps) (s : CState)
    (o : List ComboOption) (i : Option Int) (str : String) (c : Bool) :
    (emitChange p s o i str c).showList = s.showList := by
  unfold emitChange
  dsimp only
  split <;> split <;> rfl

theorem emitChange_inputValue_close (p : ComboProps) (s : CState)
    (o : List ComboOption) (i : Option Int) (str : String) :
    (emitChange p s o i str true).inputValue =
      (if (getEmitData o i str).bad = true then ""
       else match (getEmitData o i str).rawOutput with
         | some x => x.label
         | none => "") := by
  unfold emitChange
  dsimp only
  rw [if_pos rfl]
  split <;> rfl

-- --------------------------------------------------
-- Basic lemmas about getEmitData

theorem getEmitData_none (opts : List ComboOption) (str : String) :
    (getEmitData opts none str).rawOutput = none ∧
    (getEmitData opts none str).bad = true ∧
    (getEmitData opts none str).output = "" ∧
    (getEmitData opts none str).validity =
      ⟨false, (jsTrim str == "" || opts.length == 0), true⟩ := by
  unfold getEmitData
  dsimp only
  split <;> simp

theorem getEmitData_some_ok (opts : List ComboOption) (i : Int) (o : ComboOption)
    (str : String) (h0 : 0 ≤ i) (h : opts.get? i.toNat = some o) :
    (getEmitData opts (some i) str).rawOutput = some o ∧
    (getEmitData opts (some i) str).bad = false ∧
    (getEmitData opts (some i) str).output = o.value ∧
    (getEmitData opts (some i) str).validity = ⟨true, false, false⟩ := by
  have hlt : i.toNat < opts.length := by
    rcases List.get?_eq_some.mp h with ⟨hlt, -⟩
    exact hlt
  have hempty : (opts.length == 0) = false := by
    simp only [beq_eq_false_iff_ne, ne_eq]
    omega
  unfold getEmitData jsIndex
  dsimp only
  rw [hempty]
  simp only [List.get?_eq_getElem?] at h
  simp [h0, h]

theorem getEmitData_some_oob (opts : List ComboOption) (i : Int) (str : String)
    (h : ¬ (0 ≤ i ∧ i.toNat < opts.length)) :
    (getEmitData opts (some i) str).rawOutput = none ∧
    (getEmitData opts (some i) str).bad = true ∧
    (getEmitData opts (some i) str).validity =
      ⟨false, (jsTrim str == "" || opts.length == 0), true⟩ := by
  have hj : jsIndex opts i = none := by
    unfold jsIndex
    by_cases h0 : 0 ≤ i
    · rw [if_pos h0]
      refine List.get?_eq_none.mpr ?hle
      by_contra hc
      exact h ⟨h0, by omega⟩
    · rw [if_neg h0]
  unfold getEmitData
  dsimp only
  rw [hj]
  split <;> simp

-- --------------------------------------------------
-- Basic lemmas about firstMatch

theorem firstMatch_some (val : String) :
    ∀ (l : List ComboOption) (a j : Nat), firstMatch val l a = some j →
      ∃ k, k < l.length ∧ j = a + k ∧
        ∃ o, l.get? k = some o ∧ o.value = val := by
  intro l
  induction l with
  | nil => intro a j h; simp [firstMatch] at h
  | cons x rest ih =>
    intro a j h
    unfold firstMatch at h
    by_cases hx : x.value = val
    · rw [if_pos hx] at h
      injection h with h
      exact ⟨0, by simp, by omega, x, rfl, hx⟩
    · rw [if_neg hx] at h
      rcases ih (a + 1) j h with ⟨k, hk, hj, o, ho, hov⟩
      refine ⟨k + 1, ?hlt, by omega, o, by simpa using ho, hov⟩
      simp only [List.length_cons]
      omega

-- --------------------------------------------------
-- Characterisations of setOptions

theorem setOptions_eq_auto (p : ComboProps) (s : CState) (l : List ComboOption)
    (hab : (l.length == 1 && p.autoSelect) = true) :
    setOptions p s l =
      emitChange p
        { s with rawOptions := getRawOptions l, options := getRawOptions l,
                 maxIndex := (l.length : Int) - 1, selectedIndex := some 0 }
        (getRawOptions l) (some 0) s.filterStr false := by
  unfold setOptions
  simp [hab]

theorem setOptions_eq_plain (p : ComboProps) (s : CState) (l : List ComboOption)
    (hab : (l.length == 1 && p.autoSelect) = false) (hne : l ≠ []) :
    setOptions p s l =
      { s with rawOptions := getRawOptions l, options := getRawOptions l,
               maxIndex := (l.length : Int) - 1 } := by
  have hlen : 1 ≤ l.length := List.length_pos.mpr hne
  have hmx : ¬ ((l.length : Int) - 1 < 0) := by omega
  unfold setOptions
  simp [hab, hmx]

-- --------------------------------------------------
-- C1

/-- C1 (counterexample): a synchronous filter result with three options does
not reset a previously highlighted `selectedIndex` to `none` — starting from a
state with index 2 highlighted, `setOptions` keeps `selectedIndex = some 2`
even though the new list has three options and auto-select is off, refuting
"selectedIndex is none" as stated. -/
theorem C1_counterexample :
    ([oACT, oNSW, oQLD] : List ComboOption) ≠ [] ∧
    (setOptions p0 threeSel2 [oACT, oNSW, oQLD]).selectedIndex = some 2 ∧
    (setOptions p0 threeSel2 [oACT, oNSW, oQLD]).selectedIndex ≠ none := by
  refine ⟨by decide, ?_, ?_⟩ <;> rw [setOptions_eq_plain] <;> decide

/-- C1 (amended): after every synchronous filter invocation returning a
non-empty option list, `maxIndex` equals the option count minus 1; when the
list contains exactly one option and auto-select is enabled, `selectedIndex`
is set to 0 and a change emission occurs automatically; otherwise
`selectedIndex` is left unchanged (it is not reset to `none`) and no emission
occurs. -/
theorem C1_amended (p : ComboProps) (s : CState) (l : List ComboOption)
    (h : l ≠ []) :
    (setOptions p s l).maxIndex = (l.length : Int) - 1 ∧
    (l.length = 1 ∧ p.autoSelect = true →
      (setOptions p s l).selectedIndex = some 0 ∧
      (setOptions p s l).emitted.length = s.emitted.length + 1) ∧
    (¬ (l.length = 1 ∧ p.autoSelect = true) →
      (setOptions p s l).selectedIndex = s.selectedIndex ∧
      (setOptions p s l).emitted = s.emitted) := by
  by_cases hab : (l.length == 1 && p.autoSelect) = true
  · have hprop : l.length = 1 ∧ p.autoSelect = true := by simpa using hab
    rw [setOptions_eq_auto p s l hab]
    refine ⟨?_, fun _ => ⟨?_, ?_⟩, fun hc => absurd hprop hc⟩
    · rw [emitChange_maxIndex]
    · rw [emitChange_selectedIndex]
    · rw [emitChange_emitted]
      simp
  · have hprop : ¬ (l.length = 1 ∧ p.autoSelect = true) := by
      intro hc
      exact hab (by simp [hc.1, hc.2])
    rw [setOptions_eq_plain p s l (by simpa using hab) h]
    exact ⟨rfl, fun hc => absurd hc hprop, fun _ => ⟨rfl, rfl⟩⟩

/-- C1 (witness): the amended theorem evaluated at a singleton auto-select
filter result and at a three-option result. -/
theorem C1_witness :
    ((setOptions pAuto mount0 [oQLD]).selectedIndex = some 0 ∧
      (setOptions pAuto mount0 [oQLD]).emitted.length = mount0.emitted.length + 1) ∧
    ((setOptions p0 threeSel2 [oACT, oNSW, oQLD]).selectedIndex = threeSel2.selectedIndex ∧
      (setOptions p0 threeSel2 [oACT, oNSW, oQLD]).emitted = threeSel2.emitted) :=
  ⟨(C1_amended pAuto mount0 [oQLD] (by decide)).2.1 (by decide),
   (C1_amended p0 threeSel2 [oACT, oNSW, oQLD] (by decide)).2.2 (by decide)⟩

-- --------------------------------------------------
-- C2 : navigation machinery

/-- A keyboard navigation command: `increment(step)` or `decrement(step)`. -/
inductive NavOp where
  | inc (st : Int)
  | dec (st : Int)
  deriving Repr, DecidableEq

/-- The step size carried by a navigation command. -/
def NavOp.step : NavOp → Int
  | .inc st => st
  | .dec st => st

/-- Whether a navigation command is an `increment`. -/
def NavOp.isInc : NavOp → Bool
  | .inc _ => true
  | .dec _ => false

/-- Apply one navigation command to the component state. -/
def applyNav (p : ComboProps) (op : NavOp) (s : CState) : CState :=
  match op with
  | .inc st => increment p st s
  | .dec st => decrement p st s

/-- Run a sequence of navigation commands, left to right. -/
def runNav (p : ComboProps) : List NavOp → CState → CState
  | [], s => s
  | op :: rest, s => runNav p rest (applyNav p op s)

/-- The selection invariant of spec §3: `selectedIndex` is either `none` or a
concrete index within `[0, maxIndex]`. -/
def SelInv (s : CState) : Prop :=
  s.selectedIndex = none ∨
    ∃ i, s.selectedIndex = some i ∧ 0 ≤ i ∧ i ≤ s.maxIndex

/-- The landing index of one navigation command with loop mode disabled, read
off the source's branches: an increment past `maxIndex` saturates at
`maxIndex` and a decrement past 0 saturates at 0 — never the opposite bound —
while from a `none` selection an increment lands at `step - 1` and a
decrement at `maxIndex`. -/
def navClamp : NavOp → Int → Option Int → Int
  | .inc st, _, none => -1 + st
  | .inc st, mx, some i => if i + st ≤ mx then i + st else mx
  | .dec _, mx, none => mx
  | .dec st, _, some i => if i - st ≥ 0 then i - st else 0

theorem increment_none (p : ComboProps) (st : Int) (s : CState)
    (h : s.maxIndex > -1) (hn : s.selectedIndex = none) :
    increment p st s =
      emitChange p { s with selectedIndex := some (-1 + st) } s.options
        (some (-1 + st)) s.filterStr false := by
  unfold increment
  rw [if_pos h, hn]

theorem increment_some (p : ComboProps) (st : Int) (s : CState) (i : Int)
    (h : s.maxIndex > -1) (hi : s.selectedIndex = some i) :
    increment p st s =
      (if i + st ≤ s.maxIndex then
        emitChange p { s with selectedIndex := some (i + st) } s.options
          (some (i + st)) s.filterStr false
      else if p.loop = true then
        emitChange p { s with selectedIndex := some 0 } s.options
          (some 0) s.filterStr false
      else
        emitChange p { s with selectedIndex := some s.maxIndex } s.options
          (some s.maxIndex) s.filterStr false) := by
  unfold increment
  rw [if_pos h, hi]
  dsimp only
  split
  · rfl
  · split <;> rfl

theorem decrement_none (p : ComboProps) (st : Int) (s : CState)
    (h : s.maxIndex > -1) (hn : s.selectedIndex = none) :
    decrement p st s =
      emitChange p { s with selectedIndex := some s.maxIndex } s.options
        (some s.maxIndex) s.filterStr false := by
  unfold decrement
  rw [if_pos h, hn]

theorem decrement_some (p : ComboProps) (st : Int) (s : CState) (i : Int)
    (h : s.maxIndex > -1) (hi : s.selectedIndex = some i) :
    decrement p st s =
      (if i - st ≥ 0 then
        emitChange p { s with selectedIndex := some (i - st) } s.options
          (some (i - st)) s.filterStr false
      else if p.loop = true then
        emitChange p { s with selectedIndex := some s.maxIndex } s.options
          (some s.maxIndex) s.filterStr false
      else
        emitChange p { s with selectedIndex := some 0 } s.options
          (some 0) s.filterStr false) := by
  unfold decrement
  rw [if_pos h, hi]
  dsimp only
  split
  · rfl
  · split <;> rfl

theorem increment_noop (p : ComboProps) (st : Int) (s : CState)
    (h : ¬ s.maxIndex > -1) : increment p st s = s := by
  unfold increment
  rw [if_neg h]

theorem decrement_noop (p : ComboProps) (st : Int) (s : CState)
    (h : ¬ s.maxIndex > -1) : decrement p st s = s := by
  unfold decrement
  rw [if_neg h]

theorem increment_maxIndex (p : ComboProps) (st : Int) (s : CState) :
    (increment p st s).maxIndex = s.maxIndex := by
  by_cases h : s.maxIndex > -1
  · rcases hn : s.selectedIndex with _ | i
    · rw [increment_none p st s h hn, emitChange_maxIndex]
    · rw [increment_some p st s i h hn]
      split
      · rw [emitChange_maxIndex]
      · split <;> rw [emitChange_maxIndex]
  · rw [increment_noop p st s h]

theorem decrement_maxIndex (p : ComboProps) (st : Int) (s : CState) :
    (decrement p st s).maxIndex = s.maxIndex := by
  by_cases h : s.maxIndex > -1
  · rcases hn : s.selectedIndex with _ | i
    · rw [decrement_none p st s h hn, emitChange_maxIndex]
    · rw [decrement_some p st s i h hn]
      split
      · rw [emitChange_maxIndex]
      · split <;> rw [emitChange_maxIndex]
  · rw [decrement_noop p st s h]

theorem increment_selInv (p : ComboProps) (st : Int) (s : CState)
    (hl : p.loop = false) (hm : 0 ≤ s.maxIndex)
    (h1 : 1 ≤ st) (h2 : st ≤ s.maxIndex + 1) (hs : SelInv s) :
    SelInv (increment p st s) := by
  have hgt : s.maxIndex > -1 := by omega
  rcases hs with hnone | ⟨i, hi, hi0, him⟩
  · rw [increment_none p st s hgt hnone]
    right
    exact ⟨-1 + st, by rw [emitChange_selectedIndex], by omega,
      by rw [emitChange_maxIndex]; dsimp only; omega⟩
  · rw [increment_some p st s i hgt hi]
    right
    by_cases hle : i + st ≤ s.maxIndex
    · rw [if_pos hle]
      exact ⟨i + st, by rw [emitChange_selectedIndex], by omega,
        by rw [emitChange_maxIndex]; dsimp only; omega⟩
    · rw [if_neg hle, if_neg (by rw [hl]; exact Bool.false_ne_true)]
      exact ⟨s.maxIndex, by rw [emitChange_selectedIndex], by omega,
        by rw [emitChange_maxIndex]⟩

theorem decrement_selInv (p : ComboProps) (st : Int) (s : CState)
    (hl : p.loop = false) (hm : 0 ≤ s.maxIndex) (h1 : 1 ≤ st) (hs : SelInv s) :
    SelInv (decrement p st s) := by
  have hgt : s.maxIndex > -1 := by omega
  rcases hs with hnone | ⟨i, hi, hi0, him⟩
  · rw [decrement_none p st s hgt hnone]
    right
    exact ⟨s.maxIndex, by rw [emitChange_selectedIndex], by omega,
      by rw [emitChange_maxIndex]⟩
  · rw [decrement_some p st s i hgt hi]
    right
    by_cases hge : i - st ≥ 0
    · rw [if_pos hge]
      exact ⟨i - st, by rw [emitChange_selectedIndex], by omega,
        by rw [emitChange_maxIndex]; dsimp only; omega⟩
    · rw [if_neg hge, if_neg (by rw [hl]; exact Bool.false_ne_true)]
      exact ⟨0, by rw [emitChange_selectedIndex], le_refl 0,
        by rw [emitChange_maxIndex]; dsimp only; omega⟩

theorem applyNav_maxIndex (p : ComboProps) (op : NavOp) (s : CState) :
    (applyNav p op s).maxIndex = s.maxIndex := by
  cases op with
  | inc st => exact increment_maxIndex p st s
  | dec st => exact decrement_maxIndex p st s

theorem increment_lands_clamped (p : ComboProps) (st : Int) (t : CState)
    (hl : p.loop = false) (hm : 0 ≤ t.maxIndex) :
    (increment p st t).selectedIndex =
      some (navClamp (.inc st) t.maxIndex t.selectedIndex) := by
  have hgt : t.maxIndex > -1 := by omega
  rcases hn : t.selectedIndex with _ | i
  · rw [increment_none p st t hgt hn, emitChange_selectedIndex]
    rfl
  · rw [increment_some p st t i hgt hn]
    by_cases hle : i + st ≤ t.maxIndex
    · rw [if_pos hle, emitChange_selectedIndex]
      dsimp only [navClamp]
      rw [if_pos hle]
    · rw [if_neg hle, if_neg (by rw [hl]; exact Bool.false_ne_true),
        emitChange_selectedIndex]
      dsimp only [navClamp]
      rw [if_neg hle]

theorem decrement_lands_clamped (p : ComboProps) (st : Int) (t : CState)
    (hl : p.loop = false) (hm : 0 ≤ t.maxIndex) :
    (decrement p st t).selectedIndex =
      some (navClamp (.dec st) t.maxIndex t.selectedIndex) := by
  have hgt : t.maxIndex > -1 := by omega
  rcases hn : t.selectedIndex with _ | i
  · rw [decrement_none p st t hgt hn, emitChange_selectedIndex]
    rfl
  · rw [decrement_some p st t i hgt hn]
    by_cases hge : i - st ≥ 0
    · rw [if_pos hge, emitChange_selectedIndex]
      dsimp only [navClamp]
      rw [if_pos hge]
    · rw [if_neg hge, if_neg (by rw [hl]; exact Bool.false_ne_true),
        emitChange_selectedIndex]
      dsimp only [navClamp]
      rw [if_neg hge]

theorem applyNav_lands_clamped (p : ComboProps) (op : NavOp) (t : CState)
    (hl : p.loop = false) (hm : 0 ≤ t.maxIndex) :
    (applyNav p op t).selectedIndex =
      some (navClamp op t.maxIndex t.selectedIndex) := by
  cases op with
  | inc st => exact increment_lands_clamped p st t hl hm
  | dec st => exact decrement_lands_clamped p st t hl hm

/-- A state with a single option, nothing selected. -/
def oneNone : CState :=
  { mount0 with maxIndex := 0, options := [oQLD], rawOptions := [oQLD] }

/-- C2 (counterexample): with loop disabled, one option (`maxIndex = 0`) and
no current selection, `increment(5)` — the ctrl+arrow step the claim allows —
lands on index 4, outside `[0, maxIndex]`: the first move from a `none`
selection goes to `step - 1` without clamping against `maxIndex`. -/
theorem C2_counterexample :
    oneNone.maxIndex = 0 ∧ oneNone.selectedIndex = none ∧ p0.loop = false ∧
    (increment p0 5 oneNone).selectedIndex = some 4 ∧
    ¬ ((4 : Int) ≤ (increment p0 5 oneNone).maxIndex) := by
  refine ⟨rfl, rfl, rfl, ?_, ?_⟩
  · rw [increment_none p0 5 oneNone (by decide) rfl, emitChange_selectedIndex]
    decide
  · rw [increment_maxIndex]
    decide

/-- C2 (amended): for every sequence of `increment(step)`/`decrement(step)`
calls with loop mode disabled and `maxIndex ≥ 0`, where every step is at
least 1 and every *increment* step is at most `maxIndex + 1` (always true for
step 1), the selection invariant is preserved — `selectedIndex` stays `none`
or within `[0, maxIndex]` — and `maxIndex` never changes; moreover every
single call lands exactly at the saturating target `navClamp`: moving past
`maxIndex` lands at `maxIndex` and moving below 0 lands at 0, never the
opposite bound, so the moves saturate rather than wrap.  Without the bound on
increments, an `increment(step)` taken while the selection is `none` lands at
`step - 1`, which can exceed `maxIndex` (see the counterexample); decrements
need no bound. -/
theorem C2_amended (p : ComboProps) (ops : List NavOp) (s : CState)
    (hl : p.loop = false) (hm : 0 ≤ s.maxIndex)
    (hsteps : ∀ op ∈ ops, 1 ≤ op.step ∧
      (op.isInc = true → op.step ≤ s.maxIndex + 1))
    (hs : SelInv s) :
    SelInv (runNav p ops s) ∧ (runNav p ops s).maxIndex = s.maxIndex ∧
    (∀ (op : NavOp) (t : CState), 0 ≤ t.maxIndex →
      (applyNav p op t).selectedIndex =
        some (navClamp op t.maxIndex t.selectedIndex)) := by
  have main : SelInv (runNav p ops s) ∧
      (runNav p ops s).maxIndex = s.maxIndex := by
    induction ops generalizing s with
    | nil => exact ⟨hs, rfl⟩
    | cons op rest ih =>
      have hop := hsteps op (List.mem_cons_self op rest)
      have hmx : (applyNav p op s).maxIndex = s.maxIndex :=
        applyNav_maxIndex p op s
      have hinv : SelInv (applyNav p op s) := by
        cases op with
        | inc st => exact increment_selInv p st s hl hm hop.1 (hop.2 rfl) hs
        | dec st => exact decrement_selInv p st s hl hm hop.1 hs
      have hrest := ih (applyNav p op s) (by omega)
        (fun o ho => by
          have h := hsteps o (List.mem_cons_of_mem op ho)
          exact ⟨h.1, fun hinc => by rw [hmx]; exact h.2 hinc⟩)
        hinv
      refine ⟨hrest.1, ?_⟩
      rw [show runNav p (op :: rest) s = runNav p rest (applyNav p op s)
          from rfl,
        hrest.2, hmx]
  exact ⟨main.1, main.2, fun op t hmt => applyNav_lands_clamped p op t hl hmt⟩

/-- C2 (witness): the amended theorem run on a three-option list through an
arrow-down, ctrl-down, page-up, arrow-down sequence starting from index 2,
together with the saturation conjunct evaluated at two moves that cross a
bound: `increment(5)` from index 2 clamps to `maxIndex = 2` (not 0) and
`decrement(10)` from index 2 clamps to 0 (not `maxIndex`). -/
theorem C2_witness :
    (SelInv (runNav p0 [NavOp.inc 1, NavOp.inc 3, NavOp.dec 10, NavOp.inc 2]
        threeSel2) ∧
      (runNav p0 [NavOp.inc 1, NavOp.inc 3, NavOp.dec 10, NavOp.inc 2]
        threeSel2).maxIndex = threeSel2.maxIndex) ∧
    (applyNav p0 (NavOp.inc 5) threeSel2).selectedIndex =
      some (navClamp (NavOp.inc 5) threeSel2.maxIndex threeSel2.selectedIndex) ∧
    navClamp (NavOp.inc 5) threeSel2.maxIndex threeSel2.selectedIndex = 2 ∧
    (applyNav p0 (NavOp.dec 10) threeSel2).selectedIndex =
      some (navClamp (NavOp.dec 10) threeSel2.maxIndex threeSel2.selectedIndex) ∧
    navClamp (NavOp.dec 10) threeSel2.maxIndex threeSel2.selectedIndex = 0 := by
  obtain ⟨h1, h2, h3⟩ :=
    C2_amended p0 [NavOp.inc 1, NavOp.inc 3, NavOp.dec 10, NavOp.inc 2]
      threeSel2 (by decide) (by decide)
      (by intro op hop; fin_cases hop <;> exact ⟨by decide, by decide⟩)
      (Or.inr ⟨2, rfl, by decide, by decide⟩)
  exact ⟨⟨h1, h2⟩, h3 (NavOp.inc 5) threeSel2 (by decide), by decide,
    h3 (NavOp.dec 10) threeSel2 (by decide), by decide⟩

-- --------------------------------------------------
-- C3 / C9 : the debounce branch of getOptionList

theorem getOptionList_debounce (p : ComboProps) (flt : String → FilterResult)
    (bouncing : List ComboOption → String → List ComboOption → List ComboOption)
    (now : Nat) (s : CState) (str : String)
    (hf : s.fetching = true) (hr : now ≤ s.retry) :
    getOptionList p flt bouncing now s str =
      .ok { s with options := bouncing s.rawOptions str s.options } := by
  unfold getOptionList
  rw [if_neg]
  simp [hf]
  omega

/-- C3: while an asynchronous filter call is in flight (`fetching = true`) and
the current time is before the retry deadline, processing a new query never
invokes the host filter callback (the call log is unchanged), and the
displayed options are produced by the local secondary filter applied to the
last known full option set (`rawOptions`). -/
theorem C3_debounce_no_host_call (p : ComboProps) (flt : String → FilterResult)
    (bouncing : List ComboOption → String → List ComboOption → List ComboOption)
    (now : Nat) (s : CState) (str : String)
    (hf : s.fetching = true) (hr : now < s.retry) :
    ∃ s', getOptionList p flt bouncing now s str = .ok s' ∧
      s'.hostCalls = s.hostCalls ∧
      s'.options = bouncing s.rawOptions str s.options := by
  refine ⟨{ s with options := bouncing s.rawOptions str s.options },
    getOptionList_debounce p flt bouncing now s str hf (by omega), rfl, rfl⟩

/-- C3 (witness): during the debounce window no host call is made and the
interim list is the secondary filter's output. -/
theorem C3_witness :
    ∃ s', getOptionList p0 (fun _ => FilterResult.arr [oQLD]) defaultFilterSpec
        60 { threeSel2 with fetching := true, retry := 100 } "q" = .ok s' ∧
      s'.hostCalls = { threeSel2 with fetching := true, retry := 100 }.hostCalls ∧
      s'.options = defaultFilterSpec
        { threeSel2 with fetching := true, retry := 100 }.rawOptions "q"
        { threeSel2 with fetching := true, retry := 100 }.options :=
  C3_debounce_no_host_call p0 (fun _ => FilterResult.arr [oQLD])
    defaultFilterSpec 60 { threeSel2 with fetching := true, retry := 100 } "q"
    rfl (by decide)

/-- C9: for every query processed during the debounce window, only the
displayed `options` list is replaced by the local filter's output; every other
state component — `rawOptions`, `maxIndex`, `selectedIndex`, `fetching`, the
`retry` deadline, and the rest of the state — is left unchanged, so `maxIndex`
still reflects the last full result set. -/
theorem C9_debounce_frame (p : ComboProps) (flt : String → FilterResult)
    (bouncing : List ComboOption → String → List ComboOption → List ComboOption)
    (now : Nat) (s : CState) (str : String)
    (hf : s.fetching = true) (hr : now < s.retry) :
    getOptionList p flt bouncing now s str =
      .ok { s with options := bouncing s.rawOptions str s.options } :=
  getOptionList_debounce p flt bouncing now s str hf (by omega)

/-- C9 (witness): concrete run in which the interim list (one option) is
shorter than `maxIndex + 1 = 3`, showing `maxIndex` may exceed the length of
the displayed interim list. -/
theorem C9_witness :
    (getOptionList p0 (fun _ => FilterResult.arr [])
        (fun _ _ _ => [oQLD]) 60 { threeSel2 with fetching := true, retry := 100 }
        "q" =
      .ok { { threeSel2 with fetching := true, retry := 100 } with
              options := [oQLD] }) ∧
    ({ threeSel2 with fetching := true, retry := 100 }.maxIndex = 2 ∧
      ([oQLD] : List ComboOption).length = 1) :=
  ⟨C9_debounce_frame p0 (fun _ => FilterResult.arr [])
      (fun _ _ _ => [oQLD]) 60 { threeSel2 with fetching := true, retry := 100 }
      "q" rfl (by decide),
    by decide⟩

theorem setOptions_hostCalls (p : ComboProps) (s : CState)
    (l : List ComboOption) :
    (setOptions p s l).hostCalls = s.hostCalls := by
  unfold setOptions
  dsimp only
  split <;> split
  all_goals try rw [emitChange_hostCalls]
  all_goals rfl

-- --------------------------------------------------
-- C4 : the debounce timer

/-- A state mid-fetch: a Promise-returning filter call is outstanding. -/
def fetching100 : CState := { threeSel2 with fetching := true, retry := 100 }

/-- C4 (counterexample): the timer callback scheduled when the filter returns
a deferred value is `resetDebounce`, and running it on a mid-fetch state
leaves `fetching` still `true` — it clears the `retry` deadline, not the
`fetching` flag, refuting the claim as stated. -/
theorem C4_counterexample :
    fetching100.fetching = true ∧
    (resetDebounce fetching100).fetching = true ∧
    (resetDebounce fetching100).retry = 0 := by
  exact ⟨rfl, rfl, rfl⟩

/-- C4 (amended): the timer scheduled for `debounceTime` milliseconds after a
deferred filter call clears the `retry` deadline (sets it to 0) while leaving
the `fetching` flag unchanged, regardless of the deferred value's outcome;
because the query-processing guard re-enters the host-call path whenever
`retry < now`, the debounce window still ends: the next processed query
re-invokes the host filter callback even if `fetching` is still `true`. -/
theorem C4_amended (s : CState) (p : ComboProps) (flt : String → FilterResult)
    (bouncing : List ComboOption → String → List ComboOption → List ComboOption)
    (str : String) (now : Nat) (l : List ComboOption)
    (h1 : 1 ≤ now) (hfl : flt str = .arr l) :
    (resetDebounce s).retry = 0 ∧
    (resetDebounce s).fetching = s.fetching ∧
    ∃ s', getOptionList p flt bouncing now (resetDebounce s) str = .ok s' ∧
      s'.hostCalls = s.hostCalls ++ [str] := by
  refine ⟨rfl, rfl, ?_⟩
  have hc : (decide ((resetDebounce s).fetching = false) ||
      decide ((resetDebounce s).retry < now)) = true := by
    simp only [Bool.or_eq_true, decide_eq_true_eq]
    right
    simp only [resetDebounce]
    omega
  unfold getOptionList
  rw [if_pos hc]
  dsimp only
  rw [hfl]
  exact ⟨_, rfl, by rw [setOptions_hostCalls]; exact rfl⟩

-- --------------------------------------------------
-- C5 : the default secondary filter

/-- C5: the claim matches the spec's intent but not the code.  The source's
label test is the JS expression `(typeof item.label)`, a string that is always
truthy, so for a non-empty list and a non-blank query `defaultFilter` retains
*every* option: on the list `[{value:'NSW',label:'New South Wales'}]` with
query `"qld"` it returns the NSW option even though neither its value nor its
label contains `"qld"`, where the intended case-insensitive substring filter
(`defaultFilterSpec`) returns `[]`.  The spec's own scenario (`"qld"` retains
Queensland) also holds vacuously. -/
theorem C5_code_bug :
    defaultFilter [oNSW] "qld" [] = [oNSW] ∧
    defaultFilterSpec [oNSW] "qld" [] = [] ∧
    defaultFilterSpec [oQLD] "qld" [] = [oQLD] ∧
    ∀ item : ComboOption, typeofLabelTruthy item = true := by
  refine ⟨by decide, by decide, by decide, fun item => rfl⟩

/-- The label disjunct of the source's `defaultFilter` predicate is constant,
so the filter keeps every option whenever it reaches the predicate at all. -/
theorem defaultFilter_keeps_everything (optionList : List ComboOption)
    (value : String) (options : List ComboOption)
    (h1 : optionList.length > 0) (h2 : (jsToLower (jsTrim value) != "") = true) :
    defaultFilter optionList value options = optionList := by
  unfold defaultFilter
  rw [if_pos h1]
  dsimp only
  rw [if_pos h2]
  simp [typeofLabelTruthy]

-- --------------------------------------------------
-- C6 : getEmitData validity contract

/-- C6: for every call of `getEmitData` with an option list, an index and a
query string: if the index refers to an object in the list, the result
carries validity `{valid: true, badInput: false, valueMissing: false}` and a
value equal to that option's `value` field; otherwise validity has
`valid = false`, `valueMissing = true`, and `badInput` is true exactly when
the trimmed query string is empty or the option list is empty. -/
theorem C6_getEmitData (opts : List ComboOption) (idx : Option Int)
    (str : String) :
    (∀ i o, idx = some i → 0 ≤ i → opts.get? i.toNat = some o →
      (getEmitData opts idx str).validity = ⟨true, false, false⟩ ∧
      (getEmitData opts idx str).output = o.value) ∧
    ((∀ i, idx = some i → ¬ (0 ≤ i ∧ i.toNat < opts.length)) →
      (getEmitData opts idx str).validity.valid = false ∧
      (getEmitData opts idx str).validity.valueMissing = true ∧
      ((getEmitData opts idx str).validity.badInput = true ↔
        (jsTrim str = "" ∨ opts = []))) := by
  constructor
  · intro i o hi h0 ho
    subst hi
    have h := getEmitData_some_ok opts i o str h0 ho
    exact ⟨h.2.2.2, h.2.2.1⟩
  · intro hoob
    have hv : (getEmitData opts idx str).validity =
        ⟨false, (jsTrim str == "" || opts.length == 0), true⟩ := by
      cases idx with
      | none => exact (getEmitData_none opts str).2.2.2
      | some i => exact (getEmitData_some_oob opts i str (hoob i rfl)).2.2
    rw [hv]
    refine ⟨rfl, rfl, ?_⟩
    simp [List.length_eq_zero]

/-- C6 (witness): the contract evaluated at an in-range index and at an
out-of-range index. -/
theorem C6_witness :
    ((getEmitData [oNSW] (some 0) "n").validity = ⟨true, false, false⟩ ∧
      (getEmitData [oNSW] (some 0) "n").output = oNSW.value) ∧
    ((getEmitData [oNSW] (some 5) " ").validity.valid = false ∧
      (getEmitData [oNSW] (some 5) " ").validity.valueMissing = true ∧
      ((getEmitData [oNSW] (some 5) " ").validity.badInput = true ↔
        (jsTrim " " = "" ∨ ([oNSW] : List ComboOption) = []))) :=
  ⟨(C6_getEmitData [oNSW] (some 0) "n").1 0 oNSW rfl (by decide) rfl,
    (C6_getEmitData [oNSW] (some 5) " ").2
      (fun i hi => by injection hi with h; subst h; decide)⟩

-- --------------------------------------------------
-- C7 : keyboard navigation and emissions

theorem handleKeyboardNav_arrowDown (p : ComboProps) (ctrl : Bool)
    (ev : Option String) (s : CState) (h : s.maxIndex > -1) :
    handleKeyboardNav p "ArrowDown" ctrl ev s =
      increment p (if ctrl = true then 5 else 1) s := by
  unfold handleKeyboardNav
  rw [if_pos h, if_pos (Or.inl rfl)]

theorem handleKeyboardNav_arrowUp (p : ComboProps) (ctrl : Bool)
    (ev : Option String) (s : CState) (h : s.maxIndex > -1) :
    handleKeyboardNav p "ArrowUp" ctrl ev s =
      decrement p (if ctrl = true then 5 else 1) s := by
  unfold handleKeyboardNav
  rw [if_pos h, if_neg (by decide), if_pos (Or.inl rfl)]

theorem handleKeyboardNav_pageUp (p : ComboProps) (ctrl : Bool)
    (ev : Option String) (s : CState) (h : s.maxIndex > -1) :
    handleKeyboardNav p "PageUp" ctrl ev s = decrement p 10 s := by
  unfold handleKeyboardNav
  rw [if_pos h, if_neg (by decide), if_neg (by decide), if_pos rfl]

theorem handleKeyboardNav_pageDown (p : ComboProps) (ctrl : Bool)
    (ev : Option String) (s : CState) (h : s.maxIndex > -1) :
    handleKeyboardNav p "PageDown" ctrl ev s = increment p 10 s := by
  unfold handleKeyboardNav
  rw [if_pos h, if_neg (by decide), if_neg (by decide), if_neg (by decide),
    if_pos rfl]

theorem handleKeyboardNav_home (p : ComboProps) (ctrl : Bool)
    (ev : Option String) (s : CState) (h : s.maxIndex > -1) :
    handleKeyboardNav p "Home" ctrl ev s =
      { s with selectedIndex := some 0 } := by
  unfold handleKeyboardNav
  rw [if_pos h, if_neg (by decide), if_neg (by decide), if_neg (by decide),
    if_neg (by decide), if_pos rfl]

theorem handleKeyboardNav_end (p : ComboProps) (ctrl : Bool)
    (ev : Option String) (s : CState) (h : s.maxIndex > -1) :
    handleKeyboardNav p "End" ctrl ev s =
      { s with selectedIndex := some s.maxIndex } := by
  unfold handleKeyboardNav
  rw [if_pos h, if_neg (by decide), if_neg (by decide), if_neg (by decide),
    if_neg (by decide), if_neg (by decide), if_pos rfl]

theorem handleKeyboardNav_enter (p : ComboProps) (ctrl : Bool)
    (ev : Option String) (s : CState) (h : s.maxIndex > -1) :
    handleKeyboardNav p "Enter" ctrl ev s = handleEnter p ev s := by
  unfold handleKeyboardNav
  rw [if_pos h, if_neg (by decide), if_neg (by decide), if_neg (by decide),
    if_neg (by decide), if_neg (by decide), if_neg (by decide),
    if_pos (Or.inl rfl)]

theorem handleKeyboardNav_escape (p : ComboProps) (ctrl : Bool)
    (ev : Option String) (s : CState) (h : s.maxIndex > -1) :
    handleKeyboardNav p "Escape" ctrl ev s =
      { emitChange p { s with selectedIndex := none } s.options none
          s.filterStr true with showList := false } := by
  unfold handleKeyboardNav
  rw [if_pos h, if_neg (by decide), if_neg (by decide), if_neg (by decide),
    if_neg (by decide), if_neg (by decide), if_neg (by decide),
    if_neg (by decide), if_pos (Or.inr rfl)]

theorem increment_emits (p : ComboProps) (st : Int) (s : CState)
    (h : s.maxIndex > -1) :
    (increment p st s).emitted.length = s.emitted.length + 1 := by
  rcases hn : s.selectedIndex with _ | i
  · rw [increment_none p st s h hn, emitChange_emitted]
    simp
  · rw [increment_some p st s i h hn]
    split
    · rw [emitChange_emitted]; simp
    · split <;> (rw [emitChange_emitted]; simp)

theorem decrement_emits (p : ComboProps) (st : Int) (s : CState)
    (h : s.maxIndex > -1) :
    (decrement p st s).emitted.length = s.emitted.length + 1 := by
  rcases hn : s.selectedIndex with _ | i
  · rw [decrement_none p st s h hn, emitChange_emitted]
    simp
  · rw [decrement_some p st s i h hn]
    split
    · rw [emitChange_emitted]; simp
    · split <;> (rw [emitChange_emitted]; simp)

-- --------------------------------------------------
-- handleEnter characterisations (shared by C7 and C10)

theorem handleEnter_nomatch (p : ComboProps) (ev : Option String) (s : CState)
    (h : dataValue ev = "" ∨ firstMatch (dataValue ev) s.rawOptions 0 = none) :
    handleEnter p ev s =
      { emitChange p { s with selectedIndex := none } s.rawOptions none
          s.filterStr true with showList := false } := by
  unfold handleEnter
  dsimp only
  rcases h with h | h
  · rw [if_neg (by simpa using h)]
  · by_cases hne : dataValue ev ≠ ""
    · rw [if_pos hne, h]
    · rw [if_neg hne]

theorem handleEnter_match (p : ComboProps) (ev : Option String) (s : CState)
    (a : Nat) (hne : dataValue ev ≠ "")
    (hm : firstMatch (dataValue ev) s.rawOptions 0 = some a) :
    handleEnter p ev s =
      { emitChange p { s with selectedIndex := some (a : Int) } s.rawOptions
          (some (a : Int)) s.filterStr true with showList := false } := by
  unfold handleEnter
  dsimp only
  rw [if_pos hne, hm]

theorem handleEnter_emits (p : ComboProps) (ev : Option String) (s : CState) :
    (handleEnter p ev s).emitted.length = s.emitted.length + 1 := by
  by_cases hne : dataValue ev ≠ ""
  · rcases hm : firstMatch (dataValue ev) s.rawOptions 0 with _ | a
    · rw [handleEnter_nomatch p ev s (Or.inr hm)]
      dsimp only
      rw [emitChange_emitted]
      simp
    · rw [handleEnter_match p ev s a hne hm]
      dsimp only
      rw [emitChange_emitted]
      simp
  · rw [handleEnter_nomatch p ev s (Or.inl (by simpa using hne))]
    dsimp only
    rw [emitChange_emitted]
    simp

/-- C7 (counterexample): the `Home` key mutates `selectedIndex` (from 2 to 0)
but publishes no change emission, refuting "every selection-mutating
navigation operation triggers a change emission". -/
theorem C7_counterexample :
    (handleKeyboardNav p0 "Home" false none threeSel2).selectedIndex = some 0 ∧
    threeSel2.selectedIndex = some 2 ∧
    (handleKeyboardNav p0 "Home" false none threeSel2).emitted =
      threeSel2.emitted := by
  rw [handleKeyboardNav_home p0 false none threeSel2 (by decide)]
  exact ⟨rfl, rfl, rfl⟩

/-- C7 (amended): with `maxIndex > -1`, the arrow keys, page keys, Enter and
Escape each publish exactly one change emission as a side effect of the
navigation, but `Home` and `End` set `selectedIndex` (to 0 and `maxIndex`
respectively) without emitting anything. -/
theorem C7_amended (p : ComboProps) (s : CState) (ctrl : Bool)
    (ev : Option String) (h : s.maxIndex > -1) :
    (handleKeyboardNav p "ArrowDown" ctrl ev s).emitted.length =
      s.emitted.length + 1 ∧
    (handleKeyboardNav p "ArrowUp" ctrl ev s).emitted.length =
      s.emitted.length + 1 ∧
    (handleKeyboardNav p "PageUp" ctrl ev s).emitted.length =
      s.emitted.length + 1 ∧
    (handleKeyboardNav p "PageDown" ctrl ev s).emitted.length =
      s.emitted.length + 1 ∧
    (handleKeyboardNav p "Enter" ctrl ev s).emitted.length =
      s.emitted.length + 1 ∧
    (handleKeyboardNav p "Escape" ctrl ev s).emitted.length =
      s.emitted.length + 1 ∧
    ((handleKeyboardNav p "Home" ctrl ev s).emitted = s.emitted ∧
      (handleKeyboardNav p "Home" ctrl ev s).selectedIndex = some 0) ∧
    ((handleKeyboardNav p "End" ctrl ev s).emitted = s.emitted ∧
      (handleKeyboardNav p "End" ctrl ev s).selectedIndex = some s.maxIndex) := by
  refine ⟨?_, ?_, ?_, ?_, ?_, ?_, ?_, ?_⟩
  · rw [handleKeyboardNav_arrowDown p ctrl ev s h]
    exact increment_emits p _ s h
  · rw [handleKeyboardNav_arrowUp p ctrl ev s h]
    exact decrement_emits p _ s h
  · rw [handleKeyboardNav_pageUp p ctrl ev s h]
    exact decrement_emits p 10 s h
  · rw [handleKeyboardNav_pageDown p ctrl ev s h]
    exact increment_emits p 10 s h
  · rw [handleKeyboardNav_enter p ctrl ev s h]
    exact handleEnter_emits p ev s
  · rw [handleKeyboardNav_escape p ctrl ev s h]
    dsimp only
    rw [emitChange_emitted]
    simp
  · rw [handleKeyboardNav_home p ctrl ev s h]
    exact ⟨rfl, rfl⟩
  · rw [handleKeyboardNav_end p ctrl ev s h]
    exact ⟨rfl, rfl⟩

/-- C7 (witness): the amended theorem evaluated on a three-option state. -/
theorem C7_witness :
    (handleKeyboardNav p0 "ArrowDown" false none threeSel2).emitted.length =
      threeSel2.emitted.length + 1 ∧
    (handleKeyboardNav p0 "ArrowUp" false none threeSel2).emitted.length =
      threeSel2.emitted.length + 1 ∧
    (handleKeyboardNav p0 "PageUp" false none threeSel2).emitted.length =
      threeSel2.emitted.length + 1 ∧
    (handleKeyboardNav p0 "PageDown" false none threeSel2).emitted.length =
      threeSel2.emitted.length + 1 ∧
    (handleKeyboardNav p0 "Enter" false none threeSel2).emitted.length =
      threeSel2.emitted.length + 1 ∧
    (handleKeyboardNav p0 "Escape" false none threeSel2).emitted.length =
      threeSel2.emitted.length + 1 ∧
    ((handleKeyboardNav p0 "Home" false none threeSel2).emitted =
        threeSel2.emitted ∧
      (handleKeyboardNav p0 "Home" false none threeSel2).selectedIndex =
        some 0) ∧
    ((handleKeyboardNav p0 "End" false none threeSel2).emitted =
        threeSel2.emitted ∧
      (handleKeyboardNav p0 "End" false none threeSel2).selectedIndex =
        some threeSel2.maxIndex) :=
  C7_amended p0 threeSel2 false none (by decide)

-- --------------------------------------------------
-- C8 : getOptionItem on strings, numbers and unsupported items

/-- C8 (counterexample): for the string item `"a"` the normaliser does not
produce the three-field record `{value:'a', label:'a', icon:''}` (one with no
`default` property): the source also writes `default: tmp`, so the produced
record carries the extra field `default = 'a'`. -/
theorem C8_counterexample :
    getOptionItem (fun o => o) (RawItem.str "a") ≠
      Except.ok { value := "a", label := "a", dflt := none, icon := "" } ∧
    getOptionItem (fun o => o) (RawItem.str "a") =
      Except.ok { value := "a", label := "a", dflt := some "a", icon := "" } := by
  refine ⟨fun h => ?_, rfl⟩
  have h2 := Except.ok.inj h
  have h3 := congrArg NormOption.dflt h2
  exact absurd h3 (by decide)

/-- C8 (amended): for every raw item that is a string or a number, the option
normaliser produces the record
`{value: str(item), label: str(item), default: str(item), icon: ''}` — the
claimed `value`/`label`/`icon` fields plus an additional `default` field —
and for every item that is neither a string, a number, nor an object it fails
with an error naming the offending item's `typeof`. -/
theorem C8_amended (f : NormOption → NormOption) (s : String) (n : Int)
    (ty : String) :
    getOptionItem f (RawItem.str s) =
      Except.ok { value := s, label := s, dflt := some s, icon := "" } ∧
    getOptionItem f (RawItem.num n) =
      Except.ok
        { value := toString n, label := toString n,
          dflt := some (toString n), icon := "" } ∧
    getOptionItem f (RawItem.other ty) =
      Except.error ("getOptionItem()  expects each item to be a string, "
        ++ "number or object. Received " ++ ty) :=
  ⟨rfl, rfl, rfl⟩

-- --------------------------------------------------
-- C10 : Enter-key commit

/-- C10: on an Enter-key commit, if the event target's `data-value` is the
empty string or matches no option's `value` in the cached raw option list,
then `selectedIndex` becomes `none`, the emitted change carries
`validity.valid = false`, the input's displayed text is cleared, and the list
closes; if it does match, `selectedIndex` is set to the first matching index,
the input's displayed text becomes that option's label, and the list
closes. -/
theorem C10_handleEnter (p : ComboProps) (s : CState) (ev : Option String) :
    (dataValue ev = "" ∨ firstMatch (dataValue ev) s.rawOptions 0 = none →
      (handleEnter p ev s).selectedIndex = none ∧
      (handleEnter p ev s).inputValue = "" ∧
      (handleEnter p ev s).showList = false ∧
      ∃ e, (handleEnter p ev s).emitted = s.emitted ++ [e] ∧
        e.validity.valid = false) ∧
    (∀ a, dataValue ev ≠ "" →
      firstMatch (dataValue ev) s.rawOptions 0 = some a →
      (handleEnter p ev s).selectedIndex = some (a : Int) ∧
      (handleEnter p ev s).showList = false ∧
      ∃ o, s.rawOptions.get? a = some o ∧
        (handleEnter p ev s).inputValue = o.label) := by
  constructor
  · intro h
    rw [handleEnter_nomatch p ev s h]
    rcases getEmitData_none s.rawOptions s.filterStr with ⟨-, hbad, -, hval⟩
    refine ⟨?_, ?_, rfl, ?_⟩
    · dsimp only
      rw [emitChange_selectedIndex]
    · dsimp only
      rw [emitChange_inputValue_close, if_pos hbad]
    · dsimp only
      rw [emitChange_emitted]
      refine ⟨_, rfl, ?_⟩
      rw [hval]
  · intro a hne hm
    rw [handleEnter_match p ev s a hne hm]
    obtain ⟨k, hk, hak, o, ho, hov⟩ :=
      firstMatch_some (dataValue ev) s.rawOptions 0 a hm
    have hka : k = a := by omega
    rw [hka] at ho
    obtain ⟨hraw, hbad, -, -⟩ :=
      getEmitData_some_ok s.rawOptions (a : Int) o s.filterStr
        (by omega) (by simpa using ho)
    refine ⟨?_, rfl, o, ho, ?_⟩
    · dsimp only
      rw [emitChange_selectedIndex]
    · dsimp only
      rw [emitChange_inputValue_close,
        if_neg (by rw [hbad]; exact Bool.false_ne_true), hraw]

/-- C10 (witness): the commit contract evaluated on a three-option state,
once with a `data-value` matching no option and once with `data-value`
`"NSW"`, whose first match sits at index 1. -/
theorem C10_witness :
    ((handleEnter p0 (some "XXX") threeSel2).selectedIndex = none ∧
      (handleEnter p0 (some "XXX") threeSel2).inputValue = "" ∧
      (handleEnter p0 (some "XXX") threeSel2).showList = false ∧
      ∃ e, (handleEnter p0 (some "XXX") threeSel2).emitted =
          threeSel2.emitted ++ [e] ∧
        e.validity.valid = false) ∧
    ((handleEnter p0 (some "NSW") threeSel2).selectedIndex = some 1 ∧
      (handleEnter p0 (some "NSW") threeSel2).showList = false ∧
      ∃ o, threeSel2.rawOptions.get? 1 = some o ∧
        (handleEnter p0 (some "NSW") threeSel2).inputValue = o.label) :=
  ⟨(C10_handleEnter p0 threeSel2 (some "XXX")).1 (Or.inr (by decide)),
    (C10_handleEnter p0 threeSel2 (some "NSW")).2 1 (by decide) (by decide)⟩

/-- C4 (witness): the amended timer behaviour evaluated on a mid-fetch state
with the timer fired at time 60. -/
theorem C4_witness :
    (resetDebounce fetching100).retry = 0 ∧
    (resetDebounce fetching100).fetching = fetching100.fetching ∧
    ∃ s', getOptionList p0 (fun _ => FilterResult.arr [oQLD]) defaultFilterSpec
        60 (resetDebounce fetching100) "q" = .ok s' ∧
      s'.hostCalls = fetching100.hostCalls ++ ["q"] :=
  C4_amended fetching100 p0 (fun _ => FilterResult.arr [oQLD])
    defaultFilterSpec "q" 60 [oQLD] (by decide) rfl
